import Mathlib

/-!
Verification of the per-account transaction core of the jouet-paiement
repository against its natural-language specification.

The definitions below are a shallow embedding of the Rust sources:
  * src/src/model.rs, src/src/model/amount.rs        (data model, Amount)
  * src/src/account.rs                                (Account, ledgers)
  * src/src/account/transactors/depositor.rs          (SimpleDepositor)
  * src/src/account/transactors/withdrawer.rs         (SimpleWithdrawer)
  * src/src/account/transactors/disputer/credit_debit_disputer.rs
  * src/src/account/transactors/resolver/credit_debit_resolver.rs
  * src/src/account/transactors/backcharger/credit_debit_backcharger.rs
  * src/src/account/account_transactor.rs             (SimpleAccountTransactor)

Machine integers (i64 amounts, u16 client ids, u32 transaction ids) are
modelled as Int / Nat; the program never exercises overflow in the claims
considered and the spec forbids callers from overflowing. Rust HashMap
ledgers are modelled as association lists with replace-on-insert and
first-match lookup, which is observationally the map semantics the code
relies on. The panic of the assert_eq! in the depositor is modelled as
the None outcome of an Option-valued result.
-/

abbrev ClientId := Nat

abbrev TransactionId := Nat

/-- The i64 payload of Amount4DecimalBased: fixed-point units of 1/10000. -/
abbrev Amount := Int

inductive AccountStatus where
  | Active
  | Locked
deriving DecidableEq

inductive DepositStatus where
  | Accepted
  | Held
  | Resolved
  | ChargedBack
deriving DecidableEq

inductive WithdrawalStatus where
  | Accepted
  | Rejected
  | Held
  | Resolved
  | ChargedBack
deriving DecidableEq

structure Deposit where
  amount : Amount
  status : DepositStatus
deriving DecidableEq

structure Withdrawal where
  amount : Amount
  status : WithdrawalStatus
deriving DecidableEq

structure AccountSnapshot where
  available : Amount
  held : Amount
deriving DecidableEq

/-- Association-list model of the HashMap ledgers: first-match lookup. -/
def ledgerGet {β : Type} : List (TransactionId × β) → TransactionId → Option β
  | [], _ => none
  | (k, v) :: tl, key => if k = key then some v else ledgerGet tl key

/-- HashMap::insert - replace the first entry with the key, else append. -/
def ledgerInsert {β : Type} : List (TransactionId × β) → TransactionId → β → List (TransactionId × β)
  | [], key, v => [(key, v)]
  | (k, w) :: tl, key, v => if k = key then (k, v) :: tl else (k, w) :: ledgerInsert tl key v

/-- In-place mutation through get_mut: update the first entry with the key. -/
def ledgerModify {β : Type} : List (TransactionId × β) → TransactionId → (β → β) → List (TransactionId × β)
  | [], _, _ => []
  | (k, v) :: tl, key, f => if k = key then (k, f v) :: tl else (k, v) :: ledgerModify tl key f

structure Account where
  client_id : ClientId
  status : AccountStatus
  account_snapshot : AccountSnapshot
  deposits : List (TransactionId × Deposit)
  withdrawals : List (TransactionId × Withdrawal)
deriving DecidableEq

inductive SuccessStatus where
  | Transacted
  | Duplicate
deriving DecidableEq

inductive DepositorError where
  | AccountLocked
  | ConflictingWithPreviousTransaction (t : TransactionId)
deriving DecidableEq

inductive WithdrawerError where
  | AccountLocked
  | InsufficientFund
deriving DecidableEq

inductive DisputerError where
  | AccountLocked
  | NoTransactionFound
deriving DecidableEq

inductive ResolverError where
  | AccountLocked
  | CannotResoveNonDisputedTransaction (t : TransactionId)
  | NoTransactionFound
deriving DecidableEq

inductive BackchargerError where
  | AccountLocked
  | CannotChargebackNonDisputedTransaction (t : TransactionId)
  | NoTransactionFound
deriving DecidableEq

/-- SimpleDepositor::deposit from transactors/depositor.rs. The None result
models the panic of assert_eq! when a duplicate id carries a different
amount. -/
def SimpleDepositor.deposit (account : Account) (transaction_id : TransactionId)
    (amount : Amount) : Option (Except DepositorError SuccessStatus × Account) :=
  if account.status = AccountStatus.Locked then
    some (Except.error DepositorError.AccountLocked, account)
  else
    match ledgerGet account.deposits transaction_id with
    | some existing =>
      if existing.amount = amount then
        some (Except.ok SuccessStatus.Duplicate, account)
      else
        none
    | none =>
      some (Except.ok SuccessStatus.Transacted,
        { account with
          account_snapshot :=
            { account.account_snapshot with
              available := account.account_snapshot.available + amount },
          deposits := ledgerInsert account.deposits transaction_id
            { amount := amount, status := DepositStatus.Accepted } })

/-- SimpleWithdrawer::withdraw from transactors/withdrawer.rs. -/
def SimpleWithdrawer.withdraw (account : Account) (transaction_id : TransactionId)
    (amount : Amount) : Except WithdrawerError Unit × Account :=
  if account.status = AccountStatus.Locked then
    (Except.error WithdrawerError.AccountLocked, account)
  else if amount ≠ 0 ∧ account.account_snapshot.available < amount then
    (Except.error WithdrawerError.InsufficientFund, account)
  else
    (Except.ok (),
      { account with
        account_snapshot :=
          { account.account_snapshot with
            available := account.account_snapshot.available - amount },
        withdrawals := ledgerInsert account.withdrawals transaction_id
          { amount := amount, status := WithdrawalStatus.Accepted } })

/-- CreditDebitDisputer::dispute from disputer/credit_debit_disputer.rs. -/
def CreditDebitDisputer.dispute (account : Account) (transaction_id : TransactionId) :
    Except DisputerError Unit × Account :=
  match ledgerGet account.deposits transaction_id with
  | some deposit =>
    match deposit.status with
    | DepositStatus.Accepted =>
      if account.status = AccountStatus.Locked then
        (Except.error DisputerError.AccountLocked, account)
      else
        (Except.ok (),
          { account with
            account_snapshot :=
              { available := account.account_snapshot.available - deposit.amount,
                held := account.account_snapshot.held + deposit.amount },
            deposits := ledgerModify account.deposits transaction_id
              (fun d => { d with status := DepositStatus.Held }) })
    | _ => (Except.ok (), account)
  | none =>
    match ledgerGet account.withdrawals transaction_id with
    | some withdrawal =>
      match withdrawal.status with
      | WithdrawalStatus.Accepted =>
        if account.status = AccountStatus.Locked then
          (Except.error DisputerError.AccountLocked, account)
        else
          (Except.ok (),
            { account with
              withdrawals := ledgerModify account.withdrawals transaction_id
                (fun w => { w with status := WithdrawalStatus.Held }),
              account_snapshot :=
                { available := account.account_snapshot.available + withdrawal.amount,
                  held := account.account_snapshot.held - withdrawal.amount } })
      | _ => (Except.ok (), account)
    | none => (Except.error DisputerError.NoTransactionFound, account)

/-- CreditDebitResolver::resolve from resolver/credit_debit_resolver.rs. -/
def CreditDebitResolver.resolve (account : Account) (transaction_id : TransactionId) :
    Except ResolverError Unit × Account :=
  match ledgerGet account.deposits transaction_id with
  | some deposit =>
    match deposit.status with
    | DepositStatus.Held =>
      if account.status = AccountStatus.Locked then
        (Except.error ResolverError.AccountLocked, account)
      else
        (Except.ok (),
          { account with
            account_snapshot :=
              { available := account.account_snapshot.available + deposit.amount,
                held := account.account_snapshot.held - deposit.amount },
            deposits := ledgerModify account.deposits transaction_id
              (fun d => { d with status := DepositStatus.Resolved }) })
    | DepositStatus.Resolved => (Except.ok (), account)
    | _ =>
      (Except.error (ResolverError.CannotResoveNonDisputedTransaction transaction_id), account)
  | none =>
    match ledgerGet account.withdrawals transaction_id with
    | some withdrawal =>
      match withdrawal.status with
      | WithdrawalStatus.Held =>
        if account.status = AccountStatus.Locked then
          (Except.error ResolverError.AccountLocked, account)
        else
          (Except.ok (),
            { account with
              account_snapshot :=
                { available := account.account_snapshot.available - withdrawal.amount,
                  held := account.account_snapshot.held + withdrawal.amount },
              withdrawals := ledgerModify account.withdrawals transaction_id
                (fun w => { w with status := WithdrawalStatus.Resolved }) })
      | WithdrawalStatus.Resolved => (Except.ok (), account)
      | _ =>
        (Except.error (ResolverError.CannotResoveNonDisputedTransaction transaction_id), account)
    | none => (Except.error ResolverError.NoTransactionFound, account)

/-- CreditDebitBackcharger::chargeback from backcharger/credit_debit_backcharger.rs. -/
def CreditDebitBackcharger.chargeback (account : Account) (transaction_id : TransactionId) :
    Except BackchargerError Unit × Account :=
  match ledgerGet account.deposits transaction_id with
  | some deposit =>
    match deposit.status with
    | DepositStatus.Held =>
      if account.status = AccountStatus.Locked then
        (Except.error BackchargerError.AccountLocked, account)
      else
        (Except.ok (),
          { account with
            account_snapshot :=
              { account.account_snapshot with
                held := account.account_snapshot.held - deposit.amount },
            deposits := ledgerModify account.deposits transaction_id
              (fun d => { d with status := DepositStatus.ChargedBack }),
            status := AccountStatus.Locked })
    | DepositStatus.ChargedBack => (Except.ok (), account)
    | _ =>
      (Except.error (BackchargerError.CannotChargebackNonDisputedTransaction transaction_id),
        account)
  | none =>
    match ledgerGet account.withdrawals transaction_id with
    | some withdrawal =>
      match withdrawal.status with
      | WithdrawalStatus.Held =>
        if account.status = AccountStatus.Locked then
          (Except.error BackchargerError.AccountLocked, account)
        else
          (Except.ok (),
            { account with
              account_snapshot :=
                { account.account_snapshot with
                  held := account.account_snapshot.held + withdrawal.amount },
              withdrawals := ledgerModify account.withdrawals transaction_id
                (fun w => { w with status := WithdrawalStatus.ChargedBack }),
              status := AccountStatus.Locked })
      | WithdrawalStatus.ChargedBack => (Except.ok (), account)
      | _ =>
        (Except.error (BackchargerError.CannotChargebackNonDisputedTransaction transaction_id),
          account)
    | none => (Except.error BackchargerError.NoTransactionFound, account)

inductive TransactionKind where
  | Deposit (amount : Amount)
  | Withdrawal (amount : Amount)
  | Dispute
  | Resolve
  | ChargeBack
deriving DecidableEq

structure Transaction where
  client_id : ClientId
  transaction_id : TransactionId
  kind : TransactionKind
deriving DecidableEq

inductive AccountTransactorError where
  | MismatchTransactionKind
  | AccountLocked (client : ClientId)
  | ConflictingWithPreviousTransaction (t : TransactionId)
  | TransactionNotFound (t : TransactionId) (client : ClientId)
  | IncompatibleTransaction (t : TransactionId) (detail : String)
  | CannotDepositToLockedAccount
  | CannotWithdrawFromLockedAccount
  | InsufficientFundForWithdrawal
  | CannotDisputeAgainstLockedAccount
  | NoTransactionFound
  | CannotResolveLockedAccount
  | CannotResolveNonDisputedTransaction (t : TransactionId)
  | CannotChargebackLockedAccount
  | CannotChargebackNonDisputedTransaction (t : TransactionId)
deriving DecidableEq

/-- From<DepositorError> for AccountTransactorError. -/
def DepositorError.toAccountError : DepositorError → AccountTransactorError
  | DepositorError.AccountLocked => AccountTransactorError.CannotDepositToLockedAccount
  | DepositorError.ConflictingWithPreviousTransaction t =>
      AccountTransactorError.ConflictingWithPreviousTransaction t

/-- From<WithdrawerError> for AccountTransactorError. -/
def WithdrawerError.toAccountError : WithdrawerError → AccountTransactorError
  | WithdrawerError.AccountLocked => AccountTransactorError.CannotWithdrawFromLockedAccount
  | WithdrawerError.InsufficientFund => AccountTransactorError.InsufficientFundForWithdrawal

/-- From<DisputerError> for AccountTransactorError. -/
def DisputerError.toAccountError : DisputerError → AccountTransactorError
  | DisputerError.AccountLocked => AccountTransactorError.CannotDisputeAgainstLockedAccount
  | DisputerError.NoTransactionFound => AccountTransactorError.NoTransactionFound

/-- From<ResolverError> for AccountTransactorError. -/
def ResolverError.toAccountError : ResolverError → AccountTransactorError
  | ResolverError.AccountLocked => AccountTransactorError.CannotResolveLockedAccount
  | ResolverError.CannotResoveNonDisputedTransaction t =>
      AccountTransactorError.CannotResolveNonDisputedTransaction t
  | ResolverError.NoTransactionFound => AccountTransactorError.NoTransactionFound

/-- From<BackchargerError> for AccountTransactorError. -/
def BackchargerError.toAccountError : BackchargerError → AccountTransactorError
  | BackchargerError.AccountLocked => AccountTransactorError.CannotChargebackLockedAccount
  | BackchargerError.CannotChargebackNonDisputedTransaction t =>
      AccountTransactorError.CannotChargebackNonDisputedTransaction t
  | BackchargerError.NoTransactionFound => AccountTransactorError.NoTransactionFound

/-- SimpleAccountTransactor::transact from account_transactor.rs: dispatch to
the wired transactors (SimpleDepositor, SimpleWithdrawer, CreditDebitDisputer,
CreditDebitResolver, CreditDebitBackcharger per SimpleAccountTransactor::new),
dropping the SuccessStatus and converting each transactor error. -/
def SimpleAccountTransactor.transact (account : Account) (transaction : Transaction) :
    Option (Except AccountTransactorError Unit × Account) :=
  match transaction.kind with
  | TransactionKind.Deposit amount =>
    match SimpleDepositor.deposit account transaction.transaction_id amount with
    | none => none
    | some (Except.ok _, a) => some (Except.ok (), a)
    | some (Except.error e, a) => some (Except.error (DepositorError.toAccountError e), a)
  | TransactionKind.Withdrawal amount =>
    match SimpleWithdrawer.withdraw account transaction.transaction_id amount with
    | (Except.ok _, a) => some (Except.ok (), a)
    | (Except.error e, a) => some (Except.error (WithdrawerError.toAccountError e), a)
  | TransactionKind.Dispute =>
    match CreditDebitDisputer.dispute account transaction.transaction_id with
    | (Except.ok _, a) => some (Except.ok (), a)
    | (Except.error e, a) => some (Except.error (DisputerError.toAccountError e), a)
  | TransactionKind.Resolve =>
    match CreditDebitResolver.resolve account transaction.transaction_id with
    | (Except.ok _, a) => some (Except.ok (), a)
    | (Except.error e, a) => some (Except.error (ResolverError.toAccountError e), a)
  | TransactionKind.ChargeBack =>
    match CreditDebitBackcharger.chargeback account transaction.transaction_id with
    | (Except.ok _, a) => some (Except.ok (), a)
    | (Except.error e, a) => some (Except.error (BackchargerError.toAccountError e), a)

/-- The account state after one dispatched transaction, error or success
(errors leave the account as the transactor returned it); None is the
depositor panic. -/
def applyTransaction (account : Account) (transaction : Transaction) : Option Account :=
  (SimpleAccountTransactor.transact account transaction).map (fun r => r.2)

/-- Fold a list of transactions through the account transactor. -/
def runTransactions (account : Account) : List Transaction → Option Account
  | [] => some account
  | t :: ts =>
    match applyTransaction account t with
    | none => none
    | some a => runTransactions a ts

/-- Account::active - the freshly created account: Active, zeroed snapshot,
empty ledgers. -/
def Account.active (client : ClientId) : Account :=
  { client_id := client
    status := AccountStatus.Active
    account_snapshot := { available := 0, held := 0 }
    deposits := []
    withdrawals := [] }

/-- Value of a run of decimal digit characters. -/
def digitsToNat (l : List Char) : Nat :=
  l.foldl (fun n c => 10 * n + (c.toNat - 48)) 0

/-- Mantissa of a decimal literal: digits, optionally a dot and more digits,
requiring at least one digit overall. Returns the digit string value, the
number of fractional digits, and the unconsumed rest. -/
def parseMantissa (cs : List Char) : Option (Nat × Nat × List Char) :=
  let p := cs.span Char.isDigit
  match p.2 with
  | '.' :: r2 =>
    let q := r2.span Char.isDigit
    if p.1.isEmpty ∧ q.1.isEmpty then none
    else some (digitsToNat (p.1 ++ q.1), q.1.length, q.2)
  | _ => if p.1.isEmpty then none else some (digitsToNat p.1, 0, p.2)

/-- An optionally signed nonempty digit run that consumes the whole input. -/
def parseSignedDigits (cs : List Char) : Option Int :=
  let sr : Int × List Char :=
    match cs with
    | '+' :: t => (1, t)
    | '-' :: t => (-1, t)
    | _ => (1, cs)
  let q := sr.2.span Char.isDigit
  if q.1.isEmpty ∨ ¬ q.2.isEmpty then none else some (sr.1 * (digitsToNat q.1 : Int))

/-- The exponent suffix of a float literal: empty, or e/E then a signed
digit run. -/
def parseExpPart (cs : List Char) : Option Int :=
  match cs with
  | [] => some 0
  | 'e' :: rest => parseSignedDigits rest
  | 'E' :: rest => parseSignedDigits rest
  | _ => none

/-- The i64 resulting from truncating sign * D * 10 ^ (e - f) * 10 ^ 4
toward zero (the Rust f64-to-i64 cast truncates toward zero; D is a digit
value, hence nonnegative, so Nat division is that truncation). -/
def scaledTrunc (sign : Int) (d : Nat) (f : Nat) (e : Int) : Int :=
  let k : Int := 4 + e - f
  if 0 ≤ k then sign * (d : Int) * 10 ^ k.toNat
  else sign * ((d / 10 ^ (-k).toNat : Nat) : Int)

/-- Amount4DecimalBased::from_str from src/src/model/amount.rs: parse the
string with str::parse::<f64>, multiply by 10000 and cast to i64 with
`as`. The f64 parse is modelled exactly over finite decimal literals
(optional sign, digits with optional fraction, optional exponent); the
rounding to the nearest double is ignored (exact decimal arithmetic is
used instead) and the inf/nan literal forms are not modelled. None is the
Err(ParseFloatError) outcome. -/
def Amount4DecimalBased.from_str (s : String) : Option Amount :=
  let sc : Int × List Char :=
    match s.toList with
    | '+' :: t => (1, t)
    | '-' :: t => (-1, t)
    | cs => (1, cs)
  match parseMantissa sc.2 with
  | none => none
  | some (d, f, rest) =>
    match parseExpPart rest with
    | none => none
    | some e => some (scaledTrunc sc.1 d f e)

theorem ledgerGet_insert_self {β : Type} (l : List (TransactionId × β)) (k : TransactionId)
    (v : β) : ledgerGet (ledgerInsert l k v) k = some v := by
  induction l with
  | nil => simp [ledgerInsert, ledgerGet]
  | cons hd tl ih =>
    obtain ⟨k1, v1⟩ := hd
    by_cases h : k1 = k
    · simp [ledgerInsert, ledgerGet, h]
    · simp [ledgerInsert, ledgerGet, h, ih]

theorem ledgerGet_modify_self {β : Type} (l : List (TransactionId × β)) (k : TransactionId)
    (f : β → β) : ledgerGet (ledgerModify l k f) k = (ledgerGet l k).map f := by
  induction l with
  | nil => simp [ledgerModify, ledgerGet]
  | cons hd tl ih =>
    obtain ⟨k1, v1⟩ := hd
    by_cases h : k1 = k
    · simp [ledgerModify, ledgerGet, h]
    · simp [ledgerModify, ledgerGet, h, ih]

theorem withdraw_preserves_status (a : Account) (t : TransactionId) (amt : Amount) :
    (SimpleWithdrawer.withdraw a t amt).2.status = a.status := by
  unfold SimpleWithdrawer.withdraw
  split
  · rfl
  · split
    · rfl
    · rfl

theorem dispute_preserves_status (a : Account) (t : TransactionId) :
    (CreditDebitDisputer.dispute a t).2.status = a.status := by
  unfold CreditDebitDisputer.dispute
  rcases hd : ledgerGet a.deposits t with _ | d
  · rcases hw : ledgerGet a.withdrawals t with _ | w
    · simp
    · cases hws : w.status
      · simp [hws]
        split <;> rfl
      · simp [hws]
      · simp [hws]
      · simp [hws]
      · simp [hws]
  · cases hds : d.status
    · simp [hds]
      split <;> rfl
    · simp [hds]
    · simp [hds]
    · simp [hds]

theorem deposit_preserves_status (a : Account) (t : TransactionId) (amt : Amount)
    (r : Except DepositorError SuccessStatus) (a1 : Account)
    (h : SimpleDepositor.deposit a t amt = some (r, a1)) : a1.status = a.status := by
  unfold SimpleDepositor.deposit at h
  split at h
  · cases h; rfl
  · split at h
    · split at h
      · cases h; rfl
      · cases h
    · cases h; rfl

theorem resolve_preserves_status (a : Account) (t : TransactionId) :
    (CreditDebitResolver.resolve a t).2.status = a.status := by
  unfold CreditDebitResolver.resolve
  rcases hd : ledgerGet a.deposits t with _ | d
  · rcases hw : ledgerGet a.withdrawals t with _ | w
    · simp
    · cases hws : w.status
      · simp [hws]
      · simp [hws]
      · simp [hws]
        split <;> rfl
      · simp [hws]
      · simp [hws]
  · cases hds : d.status
    · simp [hds]
    · simp [hds]
      split <;> rfl
    · simp [hds]
    · simp [hds]

theorem deposit_error_atomic (a : Account) (t : TransactionId) (amt : Amount)
    (e : DepositorError) (a1 : Account)
    (h : SimpleDepositor.deposit a t amt = some (Except.error e, a1)) : a1 = a := by
  unfold SimpleDepositor.deposit at h
  repeat' split at h
  all_goals (cases h; try rfl)

theorem withdraw_error_atomic (a : Account) (t : TransactionId) (amt : Amount)
    (e : WithdrawerError) (a1 : Account)
    (h : SimpleWithdrawer.withdraw a t amt = (Except.error e, a1)) : a1 = a := by
  unfold SimpleWithdrawer.withdraw at h
  repeat' split at h
  all_goals (cases h; try rfl)

theorem dispute_error_atomic (a : Account) (t : TransactionId)
    (e : DisputerError) (a1 : Account)
    (h : CreditDebitDisputer.dispute a t = (Except.error e, a1)) : a1 = a := by
  unfold CreditDebitDisputer.dispute at h
  repeat' split at h
  all_goals (cases h; try rfl)

theorem resolve_error_atomic (a : Account) (t : TransactionId)
    (e : ResolverError) (a1 : Account)
    (h : CreditDebitResolver.resolve a t = (Except.error e, a1)) : a1 = a := by
  unfold CreditDebitResolver.resolve at h
  repeat' split at h
  all_goals (cases h; try rfl)

theorem chargeback_error_atomic (a : Account) (t : TransactionId)
    (e : BackchargerError) (a1 : Account)
    (h : CreditDebitBackcharger.chargeback a t = (Except.error e, a1)) : a1 = a := by
  unfold CreditDebitBackcharger.chargeback at h
  repeat' split at h
  all_goals (cases h; try rfl)

theorem lookup_miss_no_transaction (a : Account) (t : TransactionId)
    (hd : ledgerGet a.deposits t = none) (hw : ledgerGet a.withdrawals t = none) :
    CreditDebitDisputer.dispute a t = (Except.error DisputerError.NoTransactionFound, a)
    ∧ CreditDebitResolver.resolve a t = (Except.error ResolverError.NoTransactionFound, a)
    ∧ CreditDebitBackcharger.chargeback a t
      = (Except.error BackchargerError.NoTransactionFound, a) := by
  refine ⟨?_, ?_, ?_⟩
  · simp [CreditDebitDisputer.dispute, hd, hw]
  · simp [CreditDebitResolver.resolve, hd, hw]
  · simp [CreditDebitBackcharger.chargeback, hd, hw]

theorem dispute_deposit_found_withdrawals (a : Account) (t : TransactionId) (d : Deposit)
    (hd : ledgerGet a.deposits t = some d) :
    (CreditDebitDisputer.dispute a t).2.withdrawals = a.withdrawals := by
  unfold CreditDebitDisputer.dispute
  cases hds : d.status
  · simp [hd, hds]
    split <;> rfl
  · simp [hd, hds]
  · simp [hd, hds]
  · simp [hd, hds]

theorem resolve_deposit_found_withdrawals (a : Account) (t : TransactionId) (d : Deposit)
    (hd : ledgerGet a.deposits t = some d) :
    (CreditDebitResolver.resolve a t).2.withdrawals = a.withdrawals := by
  unfold CreditDebitResolver.resolve
  cases hds : d.status
  · simp [hd, hds]
  · simp [hd, hds]
    split <;> rfl
  · simp [hd, hds]
  · simp [hd, hds]

theorem chargeback_deposit_found_withdrawals (a : Account) (t : TransactionId) (d : Deposit)
    (hd : ledgerGet a.deposits t = some d) :
    (CreditDebitBackcharger.chargeback a t).2.withdrawals = a.withdrawals := by
  unfold CreditDebitBackcharger.chargeback
  cases hds : d.status
  · simp [hd, hds]
  · simp [hd, hds]
    split <;> rfl
  · simp [hd, hds]
  · simp [hd, hds]

/-- Claim C1: for every account and Deposit event, a locked account yields
AccountLocked with no mutation; a duplicate transaction id with the same
stored amount yields Duplicate with no mutation; otherwise available grows
by the amount, an Accepted deposit is inserted at the id, and the result is
Transacted. -/
theorem C1_deposit_branches (a : Account) (t : TransactionId) (amt : Amount) :
    (a.status = AccountStatus.Locked →
      SimpleDepositor.deposit a t amt = some (Except.error DepositorError.AccountLocked, a))
    ∧ (a.status ≠ AccountStatus.Locked →
      ∀ d, ledgerGet a.deposits t = some d → d.amount = amt →
        SimpleDepositor.deposit a t amt = some (Except.ok SuccessStatus.Duplicate, a))
    ∧ (a.status ≠ AccountStatus.Locked → ledgerGet a.deposits t = none →
      SimpleDepositor.deposit a t amt = some (Except.ok SuccessStatus.Transacted,
        { a with
          account_snapshot :=
            { a.account_snapshot with available := a.account_snapshot.available + amt },
          deposits := ledgerInsert a.deposits t
            { amount := amt, status := DepositStatus.Accepted } })) := by
  refine ⟨?_, ?_, ?_⟩
  · intro h
    simp [SimpleDepositor.deposit, h]
  · intro h d hd hamt
    simp [SimpleDepositor.deposit, h, hd, hamt]
  · intro h hd
    simp [SimpleDepositor.deposit, h, hd]

theorem C1_deposit_branches_witness :
    SimpleDepositor.deposit
      { client_id := 9, status := AccountStatus.Locked,
        account_snapshot := { available := 3, held := 4 }, deposits := [], withdrawals := [] } 1 5
      = some (Except.error DepositorError.AccountLocked,
        { client_id := 9, status := AccountStatus.Locked,
          account_snapshot := { available := 3, held := 4 }, deposits := [], withdrawals := [] })
    ∧ SimpleDepositor.deposit
      { client_id := 9, status := AccountStatus.Active,
        account_snapshot := { available := 5, held := 0 },
        deposits := [(1, { amount := 5, status := DepositStatus.Accepted })], withdrawals := [] } 1 5
      = some (Except.ok SuccessStatus.Duplicate,
        { client_id := 9, status := AccountStatus.Active,
          account_snapshot := { available := 5, held := 0 },
          deposits := [(1, { amount := 5, status := DepositStatus.Accepted })], withdrawals := [] })
    ∧ SimpleDepositor.deposit
      { client_id := 9, status := AccountStatus.Active,
        account_snapshot := { available := 0, held := 0 }, deposits := [], withdrawals := [] } 1 5
      = some (Except.ok SuccessStatus.Transacted,
        { client_id := 9, status := AccountStatus.Active,
          account_snapshot := { available := 5, held := 0 },
          deposits := [(1, { amount := 5, status := DepositStatus.Accepted })],
          withdrawals := [] }) :=
  ⟨(C1_deposit_branches _ 1 5).1 rfl,
   (C1_deposit_branches _ 1 5).2.1 (by decide) { amount := 5, status := DepositStatus.Accepted }
     (by decide) rfl,
   (C1_deposit_branches _ 1 5).2.2 (by decide) rfl⟩

/-- Claim C3 (amended): Dispute, Resolve and Chargeback search the deposits
ledger first and, when the id is a deposit, never touch the withdrawals
ledger; but withdrawals are disputable in this implementation (the fallback
branch), so the no-such-transaction rejection happens exactly when the id is
in neither ledger. -/
theorem C3_lifecycle_scope (a : Account) (t : TransactionId) :
    (ledgerGet a.deposits t = none → ledgerGet a.withdrawals t = none →
      CreditDebitDisputer.dispute a t = (Except.error DisputerError.NoTransactionFound, a)
      ∧ CreditDebitResolver.resolve a t = (Except.error ResolverError.NoTransactionFound, a)
      ∧ CreditDebitBackcharger.chargeback a t
        = (Except.error BackchargerError.NoTransactionFound, a))
    ∧ (∀ d, ledgerGet a.deposits t = some d →
      (CreditDebitDisputer.dispute a t).2.withdrawals = a.withdrawals
      ∧ (CreditDebitResolver.resolve a t).2.withdrawals = a.withdrawals
      ∧ (CreditDebitBackcharger.chargeback a t).2.withdrawals = a.withdrawals) := by
  refine ⟨fun hd hw => lookup_miss_no_transaction a t hd hw, fun d hd => ?_⟩
  exact ⟨dispute_deposit_found_withdrawals a t d hd,
    resolve_deposit_found_withdrawals a t d hd,
    chargeback_deposit_found_withdrawals a t d hd⟩

theorem C3_lifecycle_scope_witness :
    (CreditDebitDisputer.dispute
      { client_id := 2, status := AccountStatus.Active,
        account_snapshot := { available := 0, held := 0 }, deposits := [], withdrawals := [] } 4
      = (Except.error DisputerError.NoTransactionFound,
        { client_id := 2, status := AccountStatus.Active,
          account_snapshot := { available := 0, held := 0 }, deposits := [], withdrawals := [] }))
    ∧ (CreditDebitDisputer.dispute
      { client_id := 2, status := AccountStatus.Active,
        account_snapshot := { available := 30000, held := 0 },
        deposits := [(4, { amount := 30000, status := DepositStatus.Accepted })],
        withdrawals := [] } 4).2.withdrawals = [] :=
  ⟨((C3_lifecycle_scope
      { client_id := 2, status := AccountStatus.Active,
        account_snapshot := { available := 0, held := 0 }, deposits := [],
        withdrawals := [] } 4).1 rfl rfl).1,
   ((C3_lifecycle_scope
      { client_id := 2, status := AccountStatus.Active,
        account_snapshot := { available := 30000, held := 0 },
        deposits := [(4, { amount := 30000, status := DepositStatus.Accepted })],
        withdrawals := [] } 4).2 { amount := 30000, status := DepositStatus.Accepted } rfl).1⟩

theorem C3_counterexample :
    CreditDebitDisputer.dispute
      { client_id := 7, status := AccountStatus.Active,
        account_snapshot := { available := 0, held := 0 }, deposits := [],
        withdrawals := [(9, { amount := 50000, status := WithdrawalStatus.Accepted })] } 9
      = (Except.ok (),
        { client_id := 7, status := AccountStatus.Active,
          account_snapshot := { available := 50000, held := -50000 }, deposits := [],
          withdrawals := [(9, { amount := 50000, status := WithdrawalStatus.Held })] })
    ∧ (CreditDebitDisputer.dispute
      { client_id := 7, status := AccountStatus.Active,
        account_snapshot := { available := 0, held := 0 }, deposits := [],
        withdrawals := [(9, { amount := 50000, status := WithdrawalStatus.Accepted })] }
      9).2.withdrawals
      ≠ [(9, { amount := 50000, status := WithdrawalStatus.Accepted })] := by
  constructor
  · rfl
  · decide

/-- Claim C5: on an active account holding a deposit in Held status,
chargeback succeeds and produces exactly: held decreased by the deposit
amount, available untouched, the deposit marked ChargedBack, the account
Locked; and chargeback is the only transactor that ever writes the account
status (deposit, withdraw, dispute and resolve all preserve it). -/
theorem C5_chargeback_locks (a : Account) (t : TransactionId) (amt : Amount) (d : Deposit) :
    (a.status = AccountStatus.Active → ledgerGet a.deposits t = some d →
      d.status = DepositStatus.Held →
      CreditDebitBackcharger.chargeback a t = (Except.ok (),
        { a with
          account_snapshot :=
            { a.account_snapshot with held := a.account_snapshot.held - d.amount },
          deposits := ledgerModify a.deposits t
            (fun x => { x with status := DepositStatus.ChargedBack }),
          status := AccountStatus.Locked }))
    ∧ (∀ r a1, SimpleDepositor.deposit a t amt = some (r, a1) → a1.status = a.status)
    ∧ (SimpleWithdrawer.withdraw a t amt).2.status = a.status
    ∧ (CreditDebitDisputer.dispute a t).2.status = a.status
    ∧ (CreditDebitResolver.resolve a t).2.status = a.status := by
  refine ⟨?_, ?_, withdraw_preserves_status a t amt, dispute_preserves_status a t,
    resolve_preserves_status a t⟩
  · intro hA hd hds
    simp [CreditDebitBackcharger.chargeback, hd, hds, hA]
  · intro r a1 h
    exact deposit_preserves_status a t amt r a1 h

theorem C5_chargeback_locks_witness :
    CreditDebitBackcharger.chargeback
      { client_id := 1, status := AccountStatus.Active,
        account_snapshot := { available := 20000, held := 30000 },
        deposits := [(4, { amount := 30000, status := DepositStatus.Held })],
        withdrawals := [] } 4
      = (Except.ok (),
        { client_id := 1, status := AccountStatus.Locked,
          account_snapshot := { available := 20000, held := 0 },
          deposits := [(4, { amount := 30000, status := DepositStatus.ChargedBack })],
          withdrawals := [] }) :=
  (C5_chargeback_locks
    { client_id := 1, status := AccountStatus.Active,
      account_snapshot := { available := 20000, held := 30000 },
      deposits := [(4, { amount := 30000, status := DepositStatus.Held })],
      withdrawals := [] } 4 0 { amount := 30000, status := DepositStatus.Held }).1 rfl rfl rfl

/-- Claim C6 (amended): on a locked account whose ledgers do not contain the
transaction id, Dispute, Resolve and Chargeback are rejected with
NoTransactionFound (lookup happens before any locked-account check), not
with AccountLocked. -/
theorem C6_locked_missing_id (a : Account) (t : TransactionId)
    (_hL : a.status = AccountStatus.Locked)
    (hd : ledgerGet a.deposits t = none) (hw : ledgerGet a.withdrawals t = none) :
    CreditDebitDisputer.dispute a t = (Except.error DisputerError.NoTransactionFound, a)
    ∧ CreditDebitResolver.resolve a t = (Except.error ResolverError.NoTransactionFound, a)
    ∧ CreditDebitBackcharger.chargeback a t
      = (Except.error BackchargerError.NoTransactionFound, a) :=
  lookup_miss_no_transaction a t hd hw

theorem C6_locked_missing_id_witness :
    CreditDebitDisputer.dispute
      { client_id := 3, status := AccountStatus.Locked,
        account_snapshot := { available := 0, held := 0 }, deposits := [], withdrawals := [] } 7
      = (Except.error DisputerError.NoTransactionFound,
        { client_id := 3, status := AccountStatus.Locked,
          account_snapshot := { available := 0, held := 0 }, deposits := [],
          withdrawals := [] }) :=
  (C6_locked_missing_id
    { client_id := 3, status := AccountStatus.Locked,
      account_snapshot := { available := 0, held := 0 }, deposits := [], withdrawals := [] }
    7 rfl rfl rfl).1

theorem C6_counterexample :
    CreditDebitDisputer.dispute
      { client_id := 3, status := AccountStatus.Locked,
        account_snapshot := { available := 0, held := 0 }, deposits := [], withdrawals := [] } 7
      = (Except.error DisputerError.NoTransactionFound,
        { client_id := 3, status := AccountStatus.Locked,
          account_snapshot := { available := 0, held := 0 }, deposits := [], withdrawals := [] })
    ∧ CreditDebitResolver.resolve
      { client_id := 3, status := AccountStatus.Locked,
        account_snapshot := { available := 0, held := 0 }, deposits := [], withdrawals := [] } 7
      = (Except.error ResolverError.NoTransactionFound,
        { client_id := 3, status := AccountStatus.Locked,
          account_snapshot := { available := 0, held := 0 }, deposits := [], withdrawals := [] })
    ∧ CreditDebitBackcharger.chargeback
      { client_id := 3, status := AccountStatus.Locked,
        account_snapshot := { available := 0, held := 0 }, deposits := [], withdrawals := [] } 7
      = (Except.error BackchargerError.NoTransactionFound,
        { client_id := 3, status := AccountStatus.Locked,
          account_snapshot := { available := 0, held := 0 }, deposits := [], withdrawals := [] })
    ∧ DisputerError.NoTransactionFound ≠ DisputerError.AccountLocked := by
  refine ⟨rfl, rfl, rfl, ?_⟩
  decide

/-- Claim C7: every transactor is atomic on error: whenever the call returns
an error, the account it hands back is exactly the account it was given. -/
theorem C7_error_atomicity (a : Account) (t : TransactionId) (amt : Amount) :
    (∀ e a1, SimpleDepositor.deposit a t amt = some (Except.error e, a1) → a1 = a)
    ∧ (∀ e a1, SimpleWithdrawer.withdraw a t amt = (Except.error e, a1) → a1 = a)
    ∧ (∀ e a1, CreditDebitDisputer.dispute a t = (Except.error e, a1) → a1 = a)
    ∧ (∀ e a1, CreditDebitResolver.resolve a t = (Except.error e, a1) → a1 = a)
    ∧ (∀ e a1, CreditDebitBackcharger.chargeback a t = (Except.error e, a1) → a1 = a) :=
  ⟨deposit_error_atomic a t amt, withdraw_error_atomic a t amt,
    dispute_error_atomic a t, resolve_error_atomic a t, chargeback_error_atomic a t⟩

theorem C7_error_atomicity_witness :
    (SimpleWithdrawer.withdraw
      { client_id := 8, status := AccountStatus.Active,
        account_snapshot := { available := 40000, held := 0 }, deposits := [],
        withdrawals := [] } 3 99999).2
    = { client_id := 8, status := AccountStatus.Active,
        account_snapshot := { available := 40000, held := 0 }, deposits := [],
        withdrawals := [] } :=
  (C7_error_atomicity
    { client_id := 8, status := AccountStatus.Active,
      account_snapshot := { available := 40000, held := 0 }, deposits := [],
      withdrawals := [] } 3 99999).2.1 WithdrawerError.InsufficientFund _ rfl

theorem applyTransaction_deposit (a : Account) (c : ClientId) (t : TransactionId) (amt : Amount) :
    applyTransaction a { client_id := c, transaction_id := t, kind := TransactionKind.Deposit amt }
      = (SimpleDepositor.deposit a t amt).map (fun r => r.2) := by
  unfold applyTransaction SimpleAccountTransactor.transact
  rcases h : SimpleDepositor.deposit a t amt with _ | ⟨r, a1⟩
  · simp [h]
  · rcases r with r | e
    · simp [h]
    · simp [h]

theorem applyTransaction_withdrawal (a : Account) (c : ClientId) (t : TransactionId)
    (amt : Amount) :
    applyTransaction a
        { client_id := c, transaction_id := t, kind := TransactionKind.Withdrawal amt }
      = some (SimpleWithdrawer.withdraw a t amt).2 := by
  unfold applyTransaction SimpleAccountTransactor.transact
  rcases h : SimpleWithdrawer.withdraw a t amt with ⟨r, a1⟩
  rcases r with r | e
  · simp [h]
  · simp [h]

theorem applyTransaction_dispute (a : Account) (c : ClientId) (t : TransactionId) :
    applyTransaction a { client_id := c, transaction_id := t, kind := TransactionKind.Dispute }
      = some (CreditDebitDisputer.dispute a t).2 := by
  unfold applyTransaction SimpleAccountTransactor.transact
  rcases h : CreditDebitDisputer.dispute a t with ⟨r, a1⟩
  rcases r with r | e
  · simp [h]
  · simp [h]

theorem applyTransaction_resolve (a : Account) (c : ClientId) (t : TransactionId) :
    applyTransaction a { client_id := c, transaction_id := t, kind := TransactionKind.Resolve }
      = some (CreditDebitResolver.resolve a t).2 := by
  unfold applyTransaction SimpleAccountTransactor.transact
  rcases h : CreditDebitResolver.resolve a t with ⟨r, a1⟩
  rcases r with r | e
  · simp [h]
  · simp [h]

theorem applyTransaction_chargeback (a : Account) (c : ClientId) (t : TransactionId) :
    applyTransaction a { client_id := c, transaction_id := t, kind := TransactionKind.ChargeBack }
      = some (CreditDebitBackcharger.chargeback a t).2 := by
  unfold applyTransaction SimpleAccountTransactor.transact
  rcases h : CreditDebitBackcharger.chargeback a t with ⟨r, a1⟩
  rcases r with r | e
  · simp [h]
  · simp [h]

theorem deposit_idem_bind (a : Account) (t : TransactionId) (amt : Amount) :
    ((SimpleDepositor.deposit a t amt).map (fun r => r.2)).bind
        (fun x => (SimpleDepositor.deposit x t amt).map (fun r => r.2))
      = (SimpleDepositor.deposit a t amt).map (fun r => r.2) := by
  by_cases hL : a.status = AccountStatus.Locked
  · simp [SimpleDepositor.deposit, hL]
  · rcases hd : ledgerGet a.deposits t with _ | d
    · simp [SimpleDepositor.deposit, hL, hd, ledgerGet_insert_self]
    · by_cases hamt : d.amount = amt
      · simp [SimpleDepositor.deposit, hL, hd, hamt]
      · simp [SimpleDepositor.deposit, hL, hd, hamt]

theorem dispute_idem_state (a : Account) (t : TransactionId) :
    (CreditDebitDisputer.dispute (CreditDebitDisputer.dispute a t).2 t).2
      = (CreditDebitDisputer.dispute a t).2 := by
  rcases hd : ledgerGet a.deposits t with _ | d
  · rcases hw : ledgerGet a.withdrawals t with _ | w
    · simp [CreditDebitDisputer.dispute, hd, hw]
    · cases hws : w.status
      · by_cases hL : a.status = AccountStatus.Locked
        · simp [CreditDebitDisputer.dispute, hd, hw, hws, hL]
        · simp [CreditDebitDisputer.dispute, hd, hw, hws, hL, ledgerGet_modify_self]
      · simp [CreditDebitDisputer.dispute, hd, hw, hws]
      · simp [CreditDebitDisputer.dispute, hd, hw, hws]
      · simp [CreditDebitDisputer.dispute, hd, hw, hws]
      · simp [CreditDebitDisputer.dispute, hd, hw, hws]
  · cases hds : d.status
    · by_cases hL : a.status = AccountStatus.Locked
      · simp [CreditDebitDisputer.dispute, hd, hds, hL]
      · simp [CreditDebitDisputer.dispute, hd, hds, hL, ledgerGet_modify_self]
    · simp [CreditDebitDisputer.dispute, hd, hds]
    · simp [CreditDebitDisputer.dispute, hd, hds]
    · simp [CreditDebitDisputer.dispute, hd, hds]

theorem resolve_idem_state (a : Account) (t : TransactionId) :
    (CreditDebitResolver.resolve (CreditDebitResolver.resolve a t).2 t).2
      = (CreditDebitResolver.resolve a t).2 := by
  rcases hd : ledgerGet a.deposits t with _ | d
  · rcases hw : ledgerGet a.withdrawals t with _ | w
    · simp [CreditDebitResolver.resolve, hd, hw]
    · cases hws : w.status
      · simp [CreditDebitResolver.resolve, hd, hw, hws]
      · simp [CreditDebitResolver.resolve, hd, hw, hws]
      · by_cases hL : a.status = AccountStatus.Locked
        · simp [CreditDebitResolver.resolve, hd, hw, hws, hL]
        · simp [CreditDebitResolver.resolve, hd, hw, hws, hL, ledgerGet_modify_self]
      · simp [CreditDebitResolver.resolve, hd, hw, hws]
      · simp [CreditDebitResolver.resolve, hd, hw, hws]
  · cases hds : d.status
    · simp [CreditDebitResolver.resolve, hd, hds]
    · by_cases hL : a.status = AccountStatus.Locked
      · simp [CreditDebitResolver.resolve, hd, hds, hL]
      · simp [CreditDebitResolver.resolve, hd, hds, hL, ledgerGet_modify_self]
    · simp [CreditDebitResolver.resolve, hd, hds]
    · simp [CreditDebitResolver.resolve, hd, hds]

theorem chargeback_idem_state (a : Account) (t : TransactionId) :
    (CreditDebitBackcharger.chargeback (CreditDebitBackcharger.chargeback a t).2 t).2
      = (CreditDebitBackcharger.chargeback a t).2 := by
  rcases hd : ledgerGet a.deposits t with _ | d
  · rcases hw : ledgerGet a.withdrawals t with _ | w
    · simp [CreditDebitBackcharger.chargeback, hd, hw]
    · cases hws : w.status
      · simp [CreditDebitBackcharger.chargeback, hd, hw, hws]
      · simp [CreditDebitBackcharger.chargeback, hd, hw, hws]
      · by_cases hL : a.status = AccountStatus.Locked
        · simp [CreditDebitBackcharger.chargeback, hd, hw, hws, hL]
        · simp [CreditDebitBackcharger.chargeback, hd, hw, hws, hL, ledgerGet_modify_self]
      · simp [CreditDebitBackcharger.chargeback, hd, hw, hws]
      · simp [CreditDebitBackcharger.chargeback, hd, hw, hws]
  · cases hds : d.status
    · simp [CreditDebitBackcharger.chargeback, hd, hds]
    · by_cases hL : a.status = AccountStatus.Locked
      · simp [CreditDebitBackcharger.chargeback, hd, hds, hL]
      · simp [CreditDebitBackcharger.chargeback, hd, hds, hL, ledgerGet_modify_self]
    · simp [CreditDebitBackcharger.chargeback, hd, hds]
    · simp [CreditDebitBackcharger.chargeback, hd, hds]

/-- Claim C2 (amended): Deposit, Dispute, Resolve and ChargeBack events are
idempotent on the account state (applying one twice in immediate succession
ends in the same state as applying it once), but Withdrawal events are not:
the withdrawer has no duplicate check and never reports Duplicate, so
re-applying a withdrawal debits available a second time whenever funds
suffice. -/
theorem C2_idempotence_non_withdrawal (a : Account) (txn : Transaction)
    (h : ∀ amt, txn.kind ≠ TransactionKind.Withdrawal amt) :
    (applyTransaction a txn).bind (fun x => applyTransaction x txn)
      = applyTransaction a txn := by
  obtain ⟨c, t, k⟩ := txn
  cases k with
  | Deposit amt =>
    simp only [applyTransaction_deposit]
    exact deposit_idem_bind a t amt
  | Withdrawal amt => exact absurd rfl (h amt)
  | Dispute =>
    simp only [applyTransaction_dispute, Option.bind_some]
    exact congrArg some (dispute_idem_state a t)
  | Resolve =>
    simp only [applyTransaction_resolve, Option.bind_some]
    exact congrArg some (resolve_idem_state a t)
  | ChargeBack =>
    simp only [applyTransaction_chargeback, Option.bind_some]
    exact congrArg some (chargeback_idem_state a t)

theorem C2_idempotence_non_withdrawal_witness :
    (applyTransaction
        { client_id := 1, status := AccountStatus.Active,
          account_snapshot := { available := 100000, held := 0 },
          deposits := [(4, { amount := 100000, status := DepositStatus.Accepted })],
          withdrawals := [] }
        { client_id := 1, transaction_id := 4, kind := TransactionKind.Dispute }).bind
      (fun x => applyTransaction x
        { client_id := 1, transaction_id := 4, kind := TransactionKind.Dispute })
    = applyTransaction
        { client_id := 1, status := AccountStatus.Active,
          account_snapshot := { available := 100000, held := 0 },
          deposits := [(4, { amount := 100000, status := DepositStatus.Accepted })],
          withdrawals := [] }
        { client_id := 1, transaction_id := 4, kind := TransactionKind.Dispute } :=
  C2_idempotence_non_withdrawal
    { client_id := 1, status := AccountStatus.Active,
      account_snapshot := { available := 100000, held := 0 },
      deposits := [(4, { amount := 100000, status := DepositStatus.Accepted })],
      withdrawals := [] }
    { client_id := 1, transaction_id := 4, kind := TransactionKind.Dispute }
    (fun _ heq => TransactionKind.noConfusion heq)

theorem C2_counterexample :
    (applyTransaction
        { client_id := 1, status := AccountStatus.Active,
          account_snapshot := { available := 80000, held := 0 },
          deposits := [], withdrawals := [] }
        { client_id := 1, transaction_id := 2, kind := TransactionKind.Withdrawal 40000 }).bind
      (fun x => applyTransaction x
        { client_id := 1, transaction_id := 2, kind := TransactionKind.Withdrawal 40000 })
    ≠ applyTransaction
        { client_id := 1, status := AccountStatus.Active,
          account_snapshot := { available := 80000, held := 0 },
          deposits := [], withdrawals := [] }
        { client_id := 1, transaction_id := 2, kind := TransactionKind.Withdrawal 40000 }
    ∧ (SimpleWithdrawer.withdraw
        { client_id := 1, status := AccountStatus.Active,
          account_snapshot := { available := 40000, held := 0 },
          deposits := [],
          withdrawals := [(2, { amount := 40000, status := WithdrawalStatus.Accepted })] }
        2 40000).1 = Except.ok ()
    ∧ (SimpleWithdrawer.withdraw
        { client_id := 1, status := AccountStatus.Active,
          account_snapshot := { available := 40000, held := 0 },
          deposits := [],
          withdrawals := [(2, { amount := 40000, status := WithdrawalStatus.Accepted })] }
        2 40000).2
      ≠ { client_id := 1, status := AccountStatus.Active,
          account_snapshot := { available := 40000, held := 0 },
          deposits := [],
          withdrawals := [(2, { amount := 40000, status := WithdrawalStatus.Accepted })] } := by
  refine ⟨?_, rfl, ?_⟩
  · decide
  · decide

/-- Sum of a per-entry integer measure over a ledger. -/
def sumBy {β : Type} (F : β → Int) : List (TransactionId × β) → Int
  | [] => 0
  | p :: tl => F p.2 + sumBy F tl

/-- Contribution of one deposit to the held funds: its amount while Held. -/
def heldContribution (d : Deposit) : Int :=
  if d.status = DepositStatus.Held then d.amount else 0

/-- Total amount of deposits currently in Held status. -/
def heldDepositSum (l : List (TransactionId × Deposit)) : Int :=
  sumBy heldContribution l

/-- Transaction ids of the Withdrawal events of a list. -/
def withdrawalIds (ts : List Transaction) : List TransactionId :=
  ts.filterMap (fun t =>
    match t.kind with
    | TransactionKind.Withdrawal _ => some t.transaction_id
    | _ => none)

/-- Inductive invariant for the held-funds analysis, relative to a set W of
withdrawal ids: held equals the amount under deposit dispute, stored deposit
amounts are nonnegative, and every withdrawal ledger key lies in W. -/
def HeldInvariant (W : List TransactionId) (a : Account) : Prop :=
  a.account_snapshot.held = heldDepositSum a.deposits
  ∧ (∀ p ∈ a.deposits, 0 ≤ p.2.amount)
  ∧ (∀ p ∈ a.withdrawals, p.1 ∈ W)

/-- Events whose replay keeps HeldInvariant: deposits of nonnegative amounts,
withdrawals under their own id, and lifecycle events that do not target a
withdrawal id. -/
def GoodTransaction (W : List TransactionId) (t : Transaction) : Prop :=
  match t.kind with
  | TransactionKind.Deposit amount => 0 ≤ amount
  | TransactionKind.Withdrawal _ => t.transaction_id ∈ W
  | _ => t.transaction_id ∉ W

theorem sumBy_ledgerInsert_of_get_none {β : Type} (F : β → Int)
    (l : List (TransactionId × β)) (k : TransactionId) (v : β)
    (h : ledgerGet l k = none) : sumBy F (ledgerInsert l k v) = sumBy F l + F v := by
  induction l with
  | nil => simp [sumBy, ledgerInsert]
  | cons hd tl ih =>
    obtain ⟨k1, v1⟩ := hd
    by_cases hk : k1 = k
    · simp [ledgerGet, hk] at h
    · simp only [ledgerGet, hk, if_false] at h
      simp only [ledgerInsert, hk, if_false, sumBy, ih h]
      ring

theorem sumBy_ledgerModify_of_get {β : Type} (F : β → Int)
    (l : List (TransactionId × β)) (k : TransactionId) (f : β → β) (v : β)
    (h : ledgerGet l k = some v) :
    sumBy F (ledgerModify l k f) = sumBy F l - F v + F (f v) := by
  induction l with
  | nil => simp [ledgerGet] at h
  | cons hd tl ih =>
    obtain ⟨k1, v1⟩ := hd
    by_cases hk : k1 = k
    · simp only [ledgerGet, hk, if_true, Option.some.injEq] at h
      subst h
      simp only [ledgerModify, hk, if_true, sumBy]
      ring
    · simp only [ledgerGet, hk, if_false] at h
      simp only [ledgerModify, hk, if_false, sumBy, ih h]
      ring

theorem mem_ledgerInsert {β : Type} (p : TransactionId × β)
    (l : List (TransactionId × β)) (k : TransactionId) (v : β)
    (h : p ∈ ledgerInsert l k v) : p = (k, v) ∨ p ∈ l := by
  induction l with
  | nil =>
    simp [ledgerInsert] at h
    exact Or.inl h
  | cons hd tl ih =>
    obtain ⟨k1, v1⟩ := hd
    by_cases hk : k1 = k
    · subst hk
      simp only [ledgerInsert, if_true] at h
      rcases List.mem_cons.mp h with rfl | h2
      · exact Or.inl rfl
      · exact Or.inr (List.mem_cons_of_mem _ h2)
    · simp only [ledgerInsert, hk, if_false] at h
      rcases List.mem_cons.mp h with rfl | h2
      · exact Or.inr (List.mem_cons_self _ _)
      · rcases ih h2 with h3 | h3
        · exact Or.inl h3
        · exact Or.inr (List.mem_cons_of_mem _ h3)

theorem mem_ledgerModify {β : Type} (p : TransactionId × β)
    (l : List (TransactionId × β)) (k : TransactionId) (f : β → β)
    (h : p ∈ ledgerModify l k f) : p ∈ l ∨ ∃ q, q ∈ l ∧ p = (q.1, f q.2) := by
  induction l with
  | nil => simp [ledgerModify] at h
  | cons hd tl ih =>
    obtain ⟨k1, v1⟩ := hd
    by_cases hk : k1 = k
    · subst hk
      simp only [ledgerModify, if_true] at h
      rcases List.mem_cons.mp h with rfl | h2
      · exact Or.inr ⟨(k1, v1), List.mem_cons_self _ _, rfl⟩
      · exact Or.inl (List.mem_cons_of_mem _ h2)
    · simp only [ledgerModify, hk, if_false] at h
      rcases List.mem_cons.mp h with rfl | h2
      · exact Or.inl (List.mem_cons_self _ _)
      · rcases ih h2 with h3 | ⟨q, hq, hpq⟩
        · exact Or.inl (List.mem_cons_of_mem _ h3)
        · exact Or.inr ⟨q, List.mem_cons_of_mem _ hq, hpq⟩

theorem ledgerGet_mem {β : Type} (l : List (TransactionId × β)) (k : TransactionId) (v : β)
    (h : ledgerGet l k = some v) : (k, v) ∈ l := by
  induction l with
  | nil => simp [ledgerGet] at h
  | cons hd tl ih =>
    obtain ⟨k1, v1⟩ := hd
    by_cases hk : k1 = k
    · simp only [ledgerGet, hk, if_true, Option.some.injEq] at h
      subst hk
      subst h
      exact List.mem_cons_self _ _
    · simp only [ledgerGet, hk, if_false] at h
      exact List.mem_cons_of_mem _ (ih h)

theorem sumBy_nonneg {β : Type} (F : β → Int) (l : List (TransactionId × β))
    (h : ∀ p ∈ l, 0 ≤ F p.2) : 0 ≤ sumBy F l := by
  induction l with
  | nil => simp [sumBy]
  | cons hd tl ih =>
    simp only [sumBy]
    have h1 := h hd (List.mem_cons_self _ _)
    have h2 := ih (fun p hp => h p (List.mem_cons_of_mem _ hp))
    omega

theorem heldInvariant_deposit (W : List TransactionId) (a a1 : Account) (t : TransactionId)
    (amt : Amount) (r : Except DepositorError SuccessStatus)
    (hamt : 0 ≤ amt) (hI : HeldInvariant W a)
    (h : SimpleDepositor.deposit a t amt = some (r, a1)) : HeldInvariant W a1 := by
  unfold SimpleDepositor.deposit at h
  split at h
  · cases h
    exact hI
  · split at h
    next existing heq =>
      split at h
      · cases h
        exact hI
      · cases h
    next heq =>
      cases h
      obtain ⟨h1, h2, h3⟩ := hI
      refine ⟨?_, ?_, h3⟩
      · show a.account_snapshot.held = heldDepositSum (ledgerInsert a.deposits t
          { amount := amt, status := DepositStatus.Accepted })
        unfold heldDepositSum
        rw [sumBy_ledgerInsert_of_get_none heldContribution a.deposits t _ heq]
        simp only [heldContribution, reduceCtorEq, if_false, add_zero]
        exact h1
      · intro p hp
        rcases mem_ledgerInsert p a.deposits t _ hp with rfl | hp2
        · exact hamt
        · exact h2 p hp2

theorem heldInvariant_withdraw (W : List TransactionId) (a : Account) (t : TransactionId)
    (amt : Amount) (hW : t ∈ W) (hI : HeldInvariant W a) :
    HeldInvariant W (SimpleWithdrawer.withdraw a t amt).2 := by
  obtain ⟨h1, h2, h3⟩ := hI
  unfold SimpleWithdrawer.withdraw
  split
  · exact ⟨h1, h2, h3⟩
  · split
    · exact ⟨h1, h2, h3⟩
    · refine ⟨h1, h2, ?_⟩
      intro p hp
      rcases mem_ledgerInsert p a.withdrawals t _ hp with rfl | hp2
      · exact hW
      · exact h3 p hp2

theorem heldInvariant_dispute (W : List TransactionId) (a : Account) (t : TransactionId)
    (hNW : t ∉ W) (hI : HeldInvariant W a) :
    HeldInvariant W (CreditDebitDisputer.dispute a t).2 := by
  obtain ⟨h1, h2, h3⟩ := hI
  rcases hd : ledgerGet a.deposits t with _ | d
  · rcases hw : ledgerGet a.withdrawals t with _ | w
    · simp only [CreditDebitDisputer.dispute, hd, hw]
      exact ⟨h1, h2, h3⟩
    · exact absurd (h3 (t, w) (ledgerGet_mem a.withdrawals t w hw)) hNW
  · cases hds : d.status
    case Accepted =>
      by_cases hL : a.status = AccountStatus.Locked
      · simp only [CreditDebitDisputer.dispute, hd, hds, hL, if_true]
        exact ⟨h1, h2, h3⟩
      · simp only [CreditDebitDisputer.dispute, hd, hds, hL, if_false]
        refine ⟨?_, ?_, h3⟩
        · show a.account_snapshot.held + d.amount = heldDepositSum (ledgerModify a.deposits t
            (fun x => { x with status := DepositStatus.Held }))
          unfold heldDepositSum
          rw [sumBy_ledgerModify_of_get heldContribution a.deposits t _ d hd]
          simp [heldContribution, hds]
          unfold heldDepositSum at h1
          linarith [h1]
        · intro p hp
          rcases mem_ledgerModify p a.deposits t _ hp with hp2 | ⟨q, hq, rfl⟩
          · exact h2 p hp2
          · exact h2 q hq
    case Held =>
      simp only [CreditDebitDisputer.dispute, hd, hds]
      exact ⟨h1, h2, h3⟩
    case Resolved =>
      simp only [CreditDebitDisputer.dispute, hd, hds]
      exact ⟨h1, h2, h3⟩
    case ChargedBack =>
      simp only [CreditDebitDisputer.dispute, hd, hds]
      exact ⟨h1, h2, h3⟩

theorem heldInvariant_resolve (W : List TransactionId) (a : Account) (t : TransactionId)
    (hNW : t ∉ W) (hI : HeldInvariant W a) :
    HeldInvariant W (CreditDebitResolver.resolve a t).2 := by
  obtain ⟨h1, h2, h3⟩ := hI
  rcases hd : ledgerGet a.deposits t with _ | d
  · rcases hw : ledgerGet a.withdrawals t with _ | w
    · simp only [CreditDebitResolver.resolve, hd, hw]
      exact ⟨h1, h2, h3⟩
    · exact absurd (h3 (t, w) (ledgerGet_mem a.withdrawals t w hw)) hNW
  · cases hds : d.status
    case Accepted =>
      simp only [CreditDebitResolver.resolve, hd, hds]
      exact ⟨h1, h2, h3⟩
    case Held =>
      by_cases hL : a.status = AccountStatus.Locked
      · simp only [CreditDebitResolver.resolve, hd, hds, hL, if_true]
        exact ⟨h1, h2, h3⟩
      · simp only [CreditDebitResolver.resolve, hd, hds, hL, if_false]
        refine ⟨?_, ?_, h3⟩
        · show a.account_snapshot.held - d.amount = heldDepositSum (ledgerModify a.deposits t
            (fun x => { x with status := DepositStatus.Resolved }))
          unfold heldDepositSum
          rw [sumBy_ledgerModify_of_get heldContribution a.deposits t _ d hd]
          simp [heldContribution, hds]
          unfold heldDepositSum at h1
          linarith [h1]
        · intro p hp
          rcases mem_ledgerModify p a.deposits t _ hp with hp2 | ⟨q, hq, rfl⟩
          · exact h2 p hp2
          · exact h2 q hq
    case Resolved =>
      simp only [CreditDebitResolver.resolve, hd, hds]
      exact ⟨h1, h2, h3⟩
    case ChargedBack =>
      simp only [CreditDebitResolver.resolve, hd, hds]
      exact ⟨h1, h2, h3⟩

theorem heldInvariant_chargeback (W : List TransactionId) (a : Account) (t : TransactionId)
    (hNW : t ∉ W) (hI : HeldInvariant W a) :
    HeldInvariant W (CreditDebitBackcharger.chargeback a t).2 := by
  obtain ⟨h1, h2, h3⟩ := hI
  rcases hd : ledgerGet a.deposits t with _ | d
  · rcases hw : ledgerGet a.withdrawals t with _ | w
    · simp only [CreditDebitBackcharger.chargeback, hd, hw]
      exact ⟨h1, h2, h3⟩
    · exact absurd (h3 (t, w) (ledgerGet_mem a.withdrawals t w hw)) hNW
  · cases hds : d.status
    case Accepted =>
      simp only [CreditDebitBackcharger.chargeback, hd, hds]
      exact ⟨h1, h2, h3⟩
    case Held =>
      by_cases hL : a.status = AccountStatus.Locked
      · simp only [CreditDebitBackcharger.chargeback, hd, hds, hL, if_true]
        exact ⟨h1, h2, h3⟩
      · simp only [CreditDebitBackcharger.chargeback, hd, hds, hL, if_false]
        refine ⟨?_, ?_, h3⟩
        · show a.account_snapshot.held - d.amount = heldDepositSum (ledgerModify a.deposits t
            (fun x => { x with status := DepositStatus.ChargedBack }))
          unfold heldDepositSum
          rw [sumBy_ledgerModify_of_get heldContribution a.deposits t _ d hd]
          simp [heldContribution, hds]
          unfold heldDepositSum at h1
          linarith [h1]
        · intro p hp
          rcases mem_ledgerModify p a.deposits t _ hp with hp2 | ⟨q, hq, rfl⟩
          · exact h2 p hp2
          · exact h2 q hq
    case Resolved =>
      simp only [CreditDebitBackcharger.chargeback, hd, hds]
      exact ⟨h1, h2, h3⟩
    case ChargedBack =>
      simp only [CreditDebitBackcharger.chargeback, hd, hds]
      exact ⟨h1, h2, h3⟩

theorem heldInvariant_applyTransaction (W : List TransactionId) (a a1 : Account)
    (txn : Transaction) (hg : GoodTransaction W txn) (hI : HeldInvariant W a)
    (h : applyTransaction a txn = some a1) : HeldInvariant W a1 := by
  obtain ⟨c, t, k⟩ := txn
  cases k with
  | Deposit amt =>
    rw [applyTransaction_deposit] at h
    rcases hdep : SimpleDepositor.deposit a t amt with _ | ⟨r, a2⟩
    · rw [hdep] at h
      cases h
    · rw [hdep] at h
      simp only [Option.map_some'] at h
      cases h
      exact heldInvariant_deposit W a _ t amt r hg hI hdep
  | Withdrawal amt =>
    rw [applyTransaction_withdrawal] at h
    cases h
    exact heldInvariant_withdraw W a t amt hg hI
  | Dispute =>
    rw [applyTransaction_dispute] at h
    cases h
    exact heldInvariant_dispute W a t hg hI
  | Resolve =>
    rw [applyTransaction_resolve] at h
    cases h
    exact heldInvariant_resolve W a t hg hI
  | ChargeBack =>
    rw [applyTransaction_chargeback] at h
    cases h
    exact heldInvariant_chargeback W a t hg hI

theorem heldInvariant_run (W : List TransactionId) (ts : List Transaction) :
    ∀ a a1 : Account, (∀ t ∈ ts, GoodTransaction W t) → HeldInvariant W a →
      runTransactions a ts = some a1 → HeldInvariant W a1 := by
  induction ts with
  | nil =>
    intro a a1 _ hI h
    cases h
    exact hI
  | cons t ts ih =>
    intro a a1 hg hI h
    unfold runTransactions at h
    rcases happ : applyTransaction a t with _ | a2
    · rw [happ] at h
      cases h
    · rw [happ] at h
      exact ih a2 a1 (fun x hx => hg x (List.mem_cons_of_mem _ hx))
        (heldInvariant_applyTransaction W a a2 t (hg t (List.mem_cons_self _ _)) hI happ) h

/-- Claim C4 (amended): for a sequence of events replayed into a fresh
account, held is nonnegative at rest after every completed transition
provided deposit amounts are nonnegative and no Dispute, Resolve or
ChargeBack event targets the id of a Withdrawal event of the sequence;
without that proviso the claim fails, since disputing an accepted
withdrawal debits held (see the counterexample). -/
theorem C4_held_nonneg (c : ClientId) (ts : List Transaction) (a1 : Account)
    (hg : ∀ t ∈ ts, GoodTransaction (withdrawalIds ts) t)
    (h : runTransactions (Account.active c) ts = some a1) :
    0 ≤ a1.account_snapshot.held := by
  have hI0 : HeldInvariant (withdrawalIds ts) (Account.active c) := by
    refine ⟨rfl, ?_, ?_⟩
    · intro p hp
      simp [Account.active] at hp
    · intro p hp
      simp [Account.active] at hp
  have hI := heldInvariant_run (withdrawalIds ts) ts (Account.active c) a1 hg hI0 h
  rw [hI.1]
  unfold heldDepositSum
  refine sumBy_nonneg _ _ ?_
  intro p hp
  unfold heldContribution
  split
  · exact hI.2.1 p hp
  · exact le_refl 0

theorem C4_held_nonneg_witness :
    0 ≤ ({ client_id := 1, status := AccountStatus.Active,
           account_snapshot := { available := 0, held := 50000 },
           deposits := [(1, { amount := 50000, status := DepositStatus.Held })],
           withdrawals := [] } : Account).account_snapshot.held :=
  C4_held_nonneg 1
    [{ client_id := 1, transaction_id := 1, kind := TransactionKind.Deposit 50000 },
     { client_id := 1, transaction_id := 1, kind := TransactionKind.Dispute }]
    { client_id := 1, status := AccountStatus.Active,
      account_snapshot := { available := 0, held := 50000 },
      deposits := [(1, { amount := 50000, status := DepositStatus.Held })],
      withdrawals := [] }
    (by
      intro t ht
      rcases List.mem_cons.mp ht with rfl | ht2
      · show (0 : Int) ≤ 50000
        norm_num
      · rcases List.mem_cons.mp ht2 with rfl | ht3
        · show ¬ (1 ∈ withdrawalIds
            [{ client_id := 1, transaction_id := 1, kind := TransactionKind.Deposit 50000 },
             { client_id := 1, transaction_id := 1, kind := TransactionKind.Dispute }])
          simp [withdrawalIds]
        · cases ht3)
    rfl

theorem C4_counterexample :
    SimpleAccountTransactor.transact (Account.active 1)
      { client_id := 1, transaction_id := 1, kind := TransactionKind.Deposit 50000 }
      = some (Except.ok (),
        { client_id := 1, status := AccountStatus.Active,
          account_snapshot := { available := 50000, held := 0 },
          deposits := [(1, { amount := 50000, status := DepositStatus.Accepted })],
          withdrawals := [] })
    ∧ SimpleAccountTransactor.transact
      { client_id := 1, status := AccountStatus.Active,
        account_snapshot := { available := 50000, held := 0 },
        deposits := [(1, { amount := 50000, status := DepositStatus.Accepted })],
        withdrawals := [] }
      { client_id := 1, transaction_id := 2, kind := TransactionKind.Withdrawal 30000 }
      = some (Except.ok (),
        { client_id := 1, status := AccountStatus.Active,
          account_snapshot := { available := 20000, held := 0 },
          deposits := [(1, { amount := 50000, status := DepositStatus.Accepted })],
          withdrawals := [(2, { amount := 30000, status := WithdrawalStatus.Accepted })] })
    ∧ SimpleAccountTransactor.transact
      { client_id := 1, status := AccountStatus.Active,
        account_snapshot := { available := 20000, held := 0 },
        deposits := [(1, { amount := 50000, status := DepositStatus.Accepted })],
        withdrawals := [(2, { amount := 30000, status := WithdrawalStatus.Accepted })] }
      { client_id := 1, transaction_id := 2, kind := TransactionKind.Dispute }
      = some (Except.ok (),
        { client_id := 1, status := AccountStatus.Active,
          account_snapshot := { available := 50000, held := -30000 },
          deposits := [(1, { amount := 50000, status := DepositStatus.Accepted })],
          withdrawals := [(2, { amount := 30000, status := WithdrawalStatus.Held })] })
    ∧ ({ client_id := 1, status := AccountStatus.Active,
         account_snapshot := { available := 50000, held := -30000 },
         deposits := [(1, { amount := 50000, status := DepositStatus.Accepted })],
         withdrawals := [(2, { amount := 30000, status := WithdrawalStatus.Held })] }
        : Account).account_snapshot.held < 0 := by
  refine ⟨rfl, rfl, rfl, ?_⟩
  decide

/-- Claim C8 (amended): Amount parsing does not reject long fractional
parts: any well-formed decimal literal parses successfully whatever the
length of its fraction, with the value truncated to 4 decimal places,
while malformed literals do fail. -/
theorem C8_long_fraction_truncates :
    Amount4DecimalBased.from_str "1.00005" = some 10000
    ∧ Amount4DecimalBased.from_str "1.23456" = some 12345
    ∧ Amount4DecimalBased.from_str "0.123456789" = some 1234
    ∧ Amount4DecimalBased.from_str "abc" = none
    ∧ Amount4DecimalBased.from_str "1.2.3" = none
    ∧ Amount4DecimalBased.from_str "" = none
    ∧ Amount4DecimalBased.from_str "." = none := by
  refine ⟨?_, ?_, ?_, ?_, ?_, ?_, ?_⟩ <;> decide

theorem C8_counterexample :
    Amount4DecimalBased.from_str "0.00001" = some 0
    ∧ Amount4DecimalBased.from_str "0.00001" ≠ none := by
  refine ⟨?_, ?_⟩ <;> decide

/-- Claim C9 (amended): negative amounts pass the public interface: from_str
accepts any float-parseable decimal string, scientific notation and negative
values included; a Withdrawal with a negative amount passes the
insufficient-fund guard on any active account whose available funds are at
least that (negative) amount - in particular whenever available is
nonnegative - and is then recorded as an Accepted withdrawal while available
grows by the magnitude of the amount. -/
theorem C9_negative_withdrawal (a : Account) (t : TransactionId) (amt : Amount)
    (hA : a.status = AccountStatus.Active) (hneg : amt < 0)
    (hge : amt ≤ a.account_snapshot.available) :
    Amount4DecimalBased.from_str "-5.0" = some (-50000)
    ∧ Amount4DecimalBased.from_str "-5e0" = some (-50000)
    ∧ SimpleWithdrawer.withdraw a t amt = (Except.ok (),
      { a with
        account_snapshot :=
          { a.account_snapshot with
            available := a.account_snapshot.available - amt },
        withdrawals := ledgerInsert a.withdrawals t
          { amount := amt, status := WithdrawalStatus.Accepted } })
    ∧ a.account_snapshot.available - amt = a.account_snapshot.available + (-amt)
    ∧ 0 < -amt := by
  refine ⟨by decide, by decide, ?_, by ring, by linarith⟩
  have hnotlt : ¬ a.account_snapshot.available < amt := not_lt.mpr hge
  simp [SimpleWithdrawer.withdraw, hA, hnotlt]

theorem C9_negative_withdrawal_witness :
    SimpleWithdrawer.withdraw (Account.active 3) 8 (-50000) = (Except.ok (),
      { client_id := 3, status := AccountStatus.Active,
        account_snapshot := { available := 50000, held := 0 },
        deposits := [],
        withdrawals := [(8, { amount := -50000, status := WithdrawalStatus.Accepted })] }) :=
  (C9_negative_withdrawal (Account.active 3) 8 (-50000) rfl (by decide) (by decide)).2.2.1

theorem C9_counterexample :
    Amount4DecimalBased.from_str "-10.0" = some (-100000)
    ∧ SimpleWithdrawer.withdraw
      { client_id := 5, status := AccountStatus.Active,
        account_snapshot := { available := -100000, held := 0 },
        deposits := [], withdrawals := [] } 8 (-50000)
      = (Except.error WithdrawerError.InsufficientFund,
        { client_id := 5, status := AccountStatus.Active,
          account_snapshot := { available := -100000, held := 0 },
          deposits := [], withdrawals := [] }) := by
  refine ⟨?_, ?_⟩
  · decide
  · rfl

/-- Claim C10: available has no lower bound: a deposit, a withdrawal
spending part of it, then a dispute of the deposit all succeed and leave
the account at rest with available strictly negative. -/
theorem C10_available_unbounded :
    SimpleAccountTransactor.transact (Account.active 1)
      { client_id := 1, transaction_id := 1, kind := TransactionKind.Deposit 100000 }
      = some (Except.ok (),
        { client_id := 1, status := AccountStatus.Active,
          account_snapshot := { available := 100000, held := 0 },
          deposits := [(1, { amount := 100000, status := DepositStatus.Accepted })],
          withdrawals := [] })
    ∧ SimpleAccountTransactor.transact
      { client_id := 1, status := AccountStatus.Active,
        account_snapshot := { available := 100000, held := 0 },
        deposits := [(1, { amount := 100000, status := DepositStatus.Accepted })],
        withdrawals := [] }
      { client_id := 1, transaction_id := 2, kind := TransactionKind.Withdrawal 60000 }
      = some (Except.ok (),
        { client_id := 1, status := AccountStatus.Active,
          account_snapshot := { available := 40000, held := 0 },
          deposits := [(1, { amount := 100000, status := DepositStatus.Accepted })],
          withdrawals := [(2, { amount := 60000, status := WithdrawalStatus.Accepted })] })
    ∧ SimpleAccountTransactor.transact
      { client_id := 1, status := AccountStatus.Active,
        account_snapshot := { available := 40000, held := 0 },
        deposits := [(1, { amount := 100000, status := DepositStatus.Accepted })],
        withdrawals := [(2, { amount := 60000, status := WithdrawalStatus.Accepted })] }
      { client_id := 1, transaction_id := 1, kind := TransactionKind.Dispute }
      = some (Except.ok (),
        { client_id := 1, status := AccountStatus.Active,
          account_snapshot := { available := -60000, held := 100000 },
          deposits := [(1, { amount := 100000, status := DepositStatus.Held })],
          withdrawals := [(2, { amount := 60000, status := WithdrawalStatus.Accepted })] })
    ∧ ({ client_id := 1, status := AccountStatus.Active,
         account_snapshot := { available := -60000, held := 100000 },
         deposits := [(1, { amount := 100000, status := DepositStatus.Held })],
         withdrawals := [(2, { amount := 60000, status := WithdrawalStatus.Accepted })] }
        : Account).account_snapshot.available < 0 := by
  refine ⟨rfl, rfl, rfl, ?_⟩
  decide
